import Mathlib

/-!
Shallow embedding of the big-data-cluster Object Explorer component of the
repository (extensions/mssql): the `SqlClusterConnection` descriptor, the
`HadoopObjectExplorerProvider` session/expansion state machine with its
deferred (setTimeout) tasks, the per-session `RootNode`, and the
`SqlClusterLookUp` resolution chain.  JavaScript `undefined`-able fields are
modelled with `Option`, thrown errors with `Except.error`, and the deferred
callbacks of the single-threaded event loop with an explicit FIFO task queue
on the provider state; events observed by the host UI are accumulated in
event logs.
-/

namespace Mssql

/-- Option bag of a connection: the four option keys the descriptor reads
(`host`, `knoxport`, `user`, `password`); a `none` field is an absent
(JavaScript `undefined`) option. -/
structure ConnOptions where
  host : Option String
  knoxport : Option String
  user : Option String
  password : Option String
deriving DecidableEq, Repr

/-- Constant `defaultKnoxPort` from the constants file. -/
def defaultKnoxPort : String := "30443"

/-- Validity check of `SqlClusterConnection.isValid`: every one of the four
option keys must be distinct from `undefined`. -/
def isValidOptions (o : ConnOptions) : Bool :=
  o.host.isSome && o.knoxport.isSome && o.user.isSome && o.password.isSome

/-- Host read from the options (empty string for the impossible absent case,
which `isValidOptions` rules out on constructed descriptors). -/
def hostOf (o : ConnOptions) : String := o.host.getD ""

/-- Port getter semantics of line 60 of connection.ts: the stored port if it
is truthy, else `defaultKnoxPort`; the only falsy string is the empty one. -/
def portOf (o : ConnOptions) : String :=
  let p := o.knoxport.getD ""
  if p = "" then defaultKnoxPort else p

/-- User read from the options. -/
def userOf (o : ConnOptions) : String := o.user.getD ""

/-- Password read from the options. -/
def passOf (o : ConnOptions) : String := o.password.getD ""

/-- HDFS file-source options built by `createHdfsFileSource`; the nested
`requestParams.auth` record is flattened into the two `auth` fields. -/
structure HdfsOptions where
  protocol : String
  host : String
  port : String
  user : String
  path : String
  authUser : String
  authPass : String
deriving DecidableEq, Repr

/-- File-source options derived from a connection option bag, following
`SqlClusterConnection.createHdfsFileSource`. -/
def hdfsFileSourceOf (o : ConnOptions) : HdfsOptions :=
  { protocol := "https"
    host := hostOf o
    port := portOf o
    user := userOf o
    path := "gateway/default/webhdfs/v1"
    authUser := userOf o
    authPass := passOf o }

/-- Connection descriptor `SqlClusterConnection`: the constructor stores the
option bag; both the profile and the connection input shape carry the same
options, so the normalized record is the bag itself. -/
structure SqlClusterConnection where
  options : ConnOptions
deriving DecidableEq, Repr

/-- Constructor of `SqlClusterConnection`: throws the localized message
`invalidConnectionInfo` when `isValid` fails, otherwise stores the options. -/
def SqlClusterConnection.mk? (o : ConnOptions) : Except String SqlClusterConnection :=
  if isValidOptions o then Except.ok ⟨o⟩
  else Except.error "Invalid ConnectionInfo is provided."

/-- Host getter. -/
def SqlClusterConnection.host (c : SqlClusterConnection) : String := hostOf c.options

/-- Port getter with the falsy-default of line 60. -/
def SqlClusterConnection.port (c : SqlClusterConnection) : String := portOf c.options

/-- User getter. -/
def SqlClusterConnection.user (c : SqlClusterConnection) : String := userOf c.options

/-- Password getter. -/
def SqlClusterConnection.pass (c : SqlClusterConnection) : String := passOf c.options

/-- Match check of `SqlClusterConnection.isMatch`: false on an absent
argument, else strict (===) comparison of the raw `host`, `knoxport` and
`user` options of the two sides; the password options are never read. -/
def SqlClusterConnection.isMatch (c : SqlClusterConnection) (obj : Option ConnOptions) : Bool :=
  match obj with
  | none => false
  | some o =>
      (o.host == c.options.host) && (o.knoxport == c.options.knoxport) &&
        (o.user == c.options.user)

/-- File source built from the descriptor's getters. -/
def SqlClusterConnection.createHdfsFileSource (c : SqlClusterConnection) : HdfsOptions :=
  hdfsFileSourceOf c.options

/-- String that the session keys are prefixed with in `createNewSession`. -/
def objectExplorerUriStart : String := "objectexplorer://"

/-- Modelled from the spec: the `Connection` class of connectionProvider.ts is
not among the sampled sources; per the spec it normalizes the same option
shapes as the descriptor, fails construction on incomplete options, and
carries a session key (`uri`) derived from the descriptor's canonical URI
form, prefixed by the object explorer scheme via `saveUriWithPrefix`. -/
structure Connection where
  options : ConnOptions
  uri : String
deriving DecidableEq, Repr

/-- Modelled from the spec: deterministic canonical URI of a descriptor,
derived from its normalized fields and the object explorer prefix. -/
def uriOf (o : ConnOptions) : String :=
  objectExplorerUriStart ++ hostOf o ++ "," ++ portOf o ++ "," ++ userOf o

/-- Modelled from the spec: `new Connection(connInfo)` followed by
`saveUriWithPrefix(objectExplorerPrefix)`; construction throws on an
incomplete option bag, as the descriptor contract requires. -/
def Connection.mk? (o : ConnOptions) : Except String Connection :=
  if isValidOptions o then Except.ok { options := o, uri := uriOf o }
  else Except.error "Invalid ConnectionInfo is provided."

/-- Host of the provider-side connection. -/
def Connection.host (c : Connection) : String := hostOf c.options

/-- Wire-facing projection of a tree node (`sqlops.NodeInfo`); the
always-undefined `metadata` and `nodeStatus` fields are omitted. -/
structure NodeInfo where
  label : String
  isLeaf : Bool
  errorMessage : Option String
  nodePath : String
  nodeType : String
  nodeSubType : Option String
  iconType : String
deriving DecidableEq, Repr

/-- Tree nodes below a root.  The only child the sampled sources construct is
the `ConnectionNode` of hdfsProvider.ts (not among the sampled files), built
by `RootNode.getChildren` with the localized label `HDFS` and the session
connection's HDFS file source; its node path joins the parent path with the
label, per the spec's path-concatenation invariant. -/
inductive TreeNode where
  | connectionNode (label : String) (parentPath : String) (fileSource : HdfsOptions)
deriving DecidableEq, Repr

/-- Modelled from the spec: `ConnectionNode.getNodeInfo` of the missing
hdfsProvider.ts; the spec fixes label `HDFS`, `isLeaf = false`, and the
constants file fixes the `hdfs:connection` node type. -/
def TreeNode.getNodeInfo : TreeNode → NodeInfo
  | .connectionNode label parentPath _ =>
      { label := label
        isLeaf := false
        errorMessage := none
        nodePath := parentPath ++ "/" ++ label
        nodeType := "hdfs:connection"
        nodeSubType := none
        iconType := "folder" }

/-- Per-session root node.  The source `RootNode` holds its `Session` and
reads only the session's connection and uri through it; those are stored
directly here to keep the structure well-founded.  `children` is the cache
array, absent until the first build. -/
structure RootNode where
  connection : Connection
  children : Option (List TreeNode)
deriving DecidableEq, Repr

/-- Hdfs child that `RootNode.getChildren` constructs: a `ConnectionNode`
labelled `HDFS` whose parent is the root. -/
def hdfsChildOf (r : RootNode) : TreeNode :=
  TreeNode.connectionNode "HDFS" r.connection.uri (hdfsFileSourceOf r.connection.options)

/-- Children of the root, lines 376-384 of connection.ts: rebuild on
`refreshChildren` or on an absent cache, pushing exactly one `ConnectionNode`;
otherwise the cached array is returned unchanged.  The result pairs the
returned sequence with the node state after the call. -/
def RootNode.getChildren (r : RootNode) (refreshChildren : Bool) :
    List TreeNode × RootNode :=
  if refreshChildren || r.children.isNone then
    ([hdfsChildOf r], { r with children := some [hdfsChildOf r] })
  else
    (r.children.getD [], r)

/-- Node info of the root, lines 394-407: label is the connection host,
`isLeaf` false, node type `hadoop:root`, node path the session uri. -/
def RootNode.getNodeInfo (r : RootNode) : NodeInfo :=
  { label := r.connection.host
    isLeaf := false
    errorMessage := none
    nodePath := r.connection.uri
    nodeType := "hadoop:root"
    nodeSubType := none
    iconType := "root" }

/-- Session: a connection paired with its root node; its key is the
connection uri. -/
structure Session where
  connection : Connection
  root : RootNode
deriving DecidableEq, Repr

/-- Session key (`Session.uri` getter). -/
def Session.uri (s : Session) : String := s.connection.uri

/-- Payload of an `onSessionCreated` event (`sqlops.ObjectExplorerSession`). -/
structure SessionEvent where
  sessionId : String
  success : Bool
  errorMessage : Option String
  rootNodeInfo : Option NodeInfo
deriving DecidableEq, Repr

/-- Payload of an `onExpandCompleted` event
(`sqlops.ObjectExplorerExpandInfo`).  `nodes` is `none` for the undefined
nodes of the session-not-found event and `some` a list otherwise. -/
structure ExpandEvent where
  sessionId : String
  nodePath : Option String
  errorMessage : Option String
  nodes : Option (List NodeInfo)
deriving DecidableEq, Repr

/-- Argument of `expandNode` (`sqlops.ExpandNodeInfo`). -/
structure ExpandNodeInfo where
  sessionId : String
  nodePath : Option String
deriving DecidableEq, Repr

/-- Response of `closeSession`. -/
structure CloseSessionResponse where
  success : Bool
  sessionId : String
deriving DecidableEq, Repr

/-- Deferred callbacks that the provider schedules with `setTimeout`:
the guarded session construction of `createNewSession`, the
session-not-found error event of `doExpandNode`, and `startExpansion`
(which captures the session object in its closure). -/
inductive DeferredTask where
  | createSession (conn : Connection)
  | expandSessionNotFound (sessionId : String) (nodePath : Option String)
  | startExpansion (session : Session) (nodePath : Option String) (isRefresh : Bool)
deriving DecidableEq, Repr

/-- State of a `HadoopObjectExplorerProvider`: the session registry (an
insertion-ordered association list with unique keys), the FIFO queue of
deferred callbacks not yet run by the event loop, and the logs of events
emitted so far on the two emitters. -/
structure ProviderState where
  sessionMap : List (String × Session)
  tasks : List DeferredTask
  sessionEvents : List SessionEvent
  expandEvents : List ExpandEvent
deriving DecidableEq, Repr

/-- Fresh provider: empty registry, no pending work, no events emitted. -/
def initialProviderState : ProviderState :=
  { sessionMap := [], tasks := [], sessionEvents := [], expandEvents := [] }

/-- Localized `sessionIdNotFound` message of line 201, with the uri
substituted for the placeholder. -/
def sessionNotFoundMessage (uri : String) : String :=
  "Cannot expand object explorer node. Couldn\x27t find session for uri " ++ uri

/-- Localized `nodeNotFound` message of line 229, with the path substituted
for the placeholder. -/
def nodeNotFoundMessage (path : String) : String :=
  "Cannot expand object explorer node. Couldn\x27t find node for path " ++ path

/-- Error event fired by the deferred callback that `doExpandNode` schedules
when the session key is unknown: undefined nodes, the not-found message. -/
def sessionNotFoundEvent (sessionId : String) (nodePath : Option String) : ExpandEvent :=
  { sessionId := sessionId
    nodePath := nodePath
    errorMessage := some (sessionNotFoundMessage sessionId)
    nodes := none }

/-- Success event that `doCreateSession` resolves with: the session uri and
the root's node info. -/
def sessionSuccessEvent (conn : Connection) : SessionEvent :=
  { sessionId := conn.uri
    success := true
    errorMessage := none
    rootNodeInfo := some (RootNode.getNodeInfo { connection := conn, children := none }) }

/-- Expansion outcome of `startExpansion` for a captured session: resolve the
path against the root ( `findNodeByPath` with `expandIfNeeded` ), then fetch
the found node's children with `getChildren(true)`.  The sampled tree is one
level deep before any HDFS IO: the root resolves by its own uri and its
children are rebuilt; any other path is the not-found outcome with the empty
node list of the initialized expand result.  Descending into HDFS children
would call the external file source, which yields only failure-or-results
through the same single event.  The updated root (its rebuilt cache) is
returned with the event. -/
def startExpansionResult (sess : Session) (nodePath : Option String) :
    ExpandEvent × RootNode :=
  if nodePath = some sess.uri then
    let built := sess.root.getChildren true
    ({ sessionId := sess.uri
       nodePath := nodePath
       errorMessage := none
       nodes := some (built.1.map TreeNode.getNodeInfo) }, built.2)
  else
    ({ sessionId := sess.uri
       nodePath := nodePath
       errorMessage := some (nodeNotFoundMessage (nodePath.getD ""))
       nodes := some [] }, sess.root)

/-- Replace the root stored under a key, when present (the source mutates the
shared session object that both the closure and the registry reference). -/
def updateRoot (m : List (String × Session)) (key : String) (root : RootNode) :
    List (String × Session) :=
  m.map fun p => if p.1 == key then (p.1, { p.2 with root := root }) else p

/-- Run one deferred callback against the current provider state.
The `createSession` callback is the body of the `setTimeout` at lines
134-151: skipped silently when the key is already registered, otherwise
`doCreateSession` builds the session and root, registers them, and the
success event fires; construction in the sampled sources is pure and cannot
reject, so the `handleSessionFailed` catch branch is unreachable.
The `expandSessionNotFound` callback fires its error event.  The
`startExpansion` callback fires exactly one expand-complete event computed
from the session captured in its closure. -/
def runTask (s : ProviderState) (t : DeferredTask) : ProviderState :=
  match t with
  | .createSession conn =>
      if (s.sessionMap.lookup conn.uri).isSome then s
      else
        let root : RootNode := { connection := conn, children := none }
        let session : Session := { connection := conn, root := root }
        { s with
            sessionMap := s.sessionMap ++ [(conn.uri, session)]
            sessionEvents := s.sessionEvents ++ [sessionSuccessEvent conn] }
  | .expandSessionNotFound sessionId nodePath =>
      { s with expandEvents := s.expandEvents ++ [sessionNotFoundEvent sessionId nodePath] }
  | .startExpansion sess nodePath _ =>
      let res := startExpansionResult sess nodePath
      { s with
          sessionMap := updateRoot s.sessionMap sess.uri res.2
          expandEvents := s.expandEvents ++ [res.1] }

/-- Drain the event loop: run every queued deferred callback in FIFO order.
No callback queues another, so one pass empties the queue. -/
def runPendingTasks (s : ProviderState) : ProviderState :=
  s.tasks.foldl runTask { s with tasks := [] }

/-- Synchronous part of `createNewSession`, lines 126-158: construct the
connection (rejecting the promise when the constructor throws), derive the
session key, schedule the guarded construction callback, and resolve with the
accepted session id.  Nothing is emitted and the registry is untouched until
the scheduled callback runs. -/
def createNewSession (s : ProviderState) (o : ConnOptions) :
    Except String (String × ProviderState) :=
  match Connection.mk? o with
  | .error e => .error e
  | .ok conn =>
      .ok (conn.uri, { s with tasks := s.tasks ++ [DeferredTask.createSession conn] })

/-- Synchronous part of `expandNode` / `doExpandNode`, lines 184-217: reject
when `nodeInfo` is absent; resolve `false` and schedule the error event when
the session key is not registered; resolve `true` and schedule
`startExpansion` (capturing the session) otherwise. -/
def expandNode (s : ProviderState) (nodeInfo : Option ExpandNodeInfo)
    (isRefresh : Bool) : Except String (Bool × ProviderState) :=
  match nodeInfo with
  | none => .error "expandNode requires a nodeInfo object to be passed"
  | some ni =>
      match s.sessionMap.lookup ni.sessionId with
      | none =>
          .ok (false, { s with
            tasks := s.tasks ++ [DeferredTask.expandSessionNotFound ni.sessionId ni.nodePath] })
      | some sess =>
          .ok (true, { s with
            tasks := s.tasks ++ [DeferredTask.startExpansion sess ni.nodePath isRefresh] })

/-- Alias `refreshNode`: `expandNode` with forced refresh. -/
def refreshNode (s : ProviderState) (nodeInfo : Option ExpandNodeInfo) :
    Except String (Bool × ProviderState) :=
  expandNode s nodeInfo true

/-- Synchronous `closeSession`, lines 248-256: `Map.delete` reports whether
the key existed and removes it; the response carries that flag and the key. -/
def closeSession (s : ProviderState) (sessionId : String) :
    CloseSessionResponse × ProviderState :=
  let deleted := (s.sessionMap.lookup sessionId).isSome
  ({ success := deleted, sessionId := sessionId },
   { s with sessionMap := s.sessionMap.filter (fun p => !(p.1 == sessionId)) })

/-- Modelled from the spec: the provider-name constant compared at line 17 of
bigDataClusterLookUp.ts; its definition is not among the sampled constants
and its exact value does not affect any proved property. -/
def mssqlClusterProviderName : String := "mssqlCluster"

/-- Modelled from the spec: the Knox gateway endpoint name compared in the
`findIndex` of line 39; its definition is not among the sampled constants. -/
def hadoopKnoxEndpointName : String := "Knox"

/-- Endpoint record of the `IEndpoint` interface. -/
structure IEndpoint where
  serviceName : String
  ipAddress : String
  port : Nat
deriving DecidableEq, Repr

/-- Option object of a server info; the only key read is the cluster
endpoints property, absent when undefined. -/
structure ServerOptions where
  clusterEndpoints : Option (List IEndpoint)
deriving DecidableEq, Repr

/-- Server info returned by `sqlops.connection.getServerInfo`; `options` may
be undefined. -/
structure ServerInfo where
  options : Option ServerOptions
deriving DecidableEq, Repr

/-- Credentials returned by `sqlops.connection.getCredentials`. -/
structure Credentials where
  password : String
deriving DecidableEq, Repr

/-- Input object of the lookup: its provider name, the connection id after
the `id`-probing of line 30 (an absent or probing-failed id is `none`), and
its option bag (passed through unchanged on the cluster-provider branch). -/
structure ConnectionObj where
  providerName : String
  connId : Option String
  options : ConnOptions
deriving DecidableEq, Repr

/-- Result of the lookup (`ConnectionParam`), reduced to the fields the
lookup writes. -/
structure ConnectionParam where
  providerName : String
  options : ConnOptions
deriving DecidableEq, Repr

/-- JavaScript falsiness of an optional string: undefined or empty. -/
def jsFalsy (o : Option String) : Bool :=
  match o with
  | none => true
  | some s => s == ""

/-- Body of `createSqlClusterConnectionParam`, lines 27-58: each missing
prerequisite short-circuits to undefined; otherwise the Knox endpoint and the
credentials populate a fresh cluster connection param.  The collaborator
calls `getServerInfo` and `getCredentials` are passed in as functions. -/
def createSqlClusterConnectionParam
    (getServerInfo : String → Option ServerInfo)
    (getCredentials : String → Option Credentials)
    (obj : Option ConnectionObj) : Option ConnectionParam :=
  match obj with
  | none => none
  | some o =>
      if jsFalsy o.connId then none
      else
        let cid := o.connId.getD ""
        match getServerInfo cid with
        | none => none
        | some si =>
            match si.options with
            | none => none
            | some opts =>
                match opts.clusterEndpoints with
                | none => none
                | some eps =>
                    if eps.length == 0 then none
                    else
                      match eps.findIdx? (fun ep => ep.serviceName == hadoopKnoxEndpointName) with
                      | none => none
                      | some i =>
                          match getCredentials cid with
                          | none => none
                          | some cred =>
                              match eps[i]? with
                              | none => none
                              | some ep =>
                                  some { providerName := mssqlClusterProviderName
                                         options :=
                                           { host := some ep.ipAddress
                                             knoxport := some (toString ep.port)
                                             user := some "root"
                                             password := some cred.password } }

/-- Body of `lookUpSqlClusterInfo`, lines 13-25: undefined for an absent
input; inputs already under the cluster provider are converted in place;
anything else goes through `createSqlClusterConnectionParam`. -/
def lookUpSqlClusterInfo
    (getServerInfo : String → Option ServerInfo)
    (getCredentials : String → Option Credentials)
    (obj : Option ConnectionObj) : Option ConnectionParam :=
  match obj with
  | none => none
  | some o =>
      if o.providerName == mssqlClusterProviderName then
        some { providerName := o.providerName, options := o.options }
      else
        createSqlClusterConnectionParam getServerInfo getCredentials (some o)

/-- Sample complete option bag used by concrete scenarios. -/
def sampleOptions : ConnOptions :=
  { host := some "h", knoxport := some "30443", user := some "root", password := some "p" }

/-- Sample option bag with the port option present but empty. -/
def emptyPortOptions : ConnOptions :=
  { host := some "h", knoxport := some "", user := some "root", password := some "p" }

/-- Sample provider-side connection. -/
def sampleConn : Connection := { options := sampleOptions, uri := uriOf sampleOptions }

/-- Sample freshly constructed root node (children cache absent). -/
def sampleRootNode : RootNode := { connection := sampleConn, children := none }

/-- Sample expand argument whose session key is not registered anywhere. -/
def unknownExpandInfo : ExpandNodeInfo := { sessionId := "nosuchsession", nodePath := some "p" }

/-- Sample lookup input under a non-cluster provider and with no id. -/
def sampleLookupObj : ConnectionObj :=
  { providerName := "MSSQL", connId := none, options := sampleOptions }

/-- Provider state after one `createNewSession` call on a fresh provider
(unchanged state when the call rejects). -/
def afterOneCreate (o : ConnOptions) : ProviderState :=
  match createNewSession initialProviderState o with
  | .error _ => initialProviderState
  | .ok (_, s1) => s1

/-- Provider state after two `createNewSession` calls on a fresh provider
(each rejecting call leaves the state of the calls before it). -/
def afterTwoCreates (o1 o2 : ConnOptions) : ProviderState :=
  match createNewSession initialProviderState o1 with
  | .error _ => initialProviderState
  | .ok (_, s1) =>
      match createNewSession s1 o2 with
      | .error _ => s1
      | .ok (_, s2) => s2

/- Helper lemmas about the event loop and the registry. -/

/-- Draining the queue after appending one task equals draining the original
queue and then running that task. -/
theorem runPendingTasks_snoc (s : ProviderState) (t : DeferredTask) :
    runPendingTasks { s with tasks := s.tasks ++ [t] } =
      runTask (runPendingTasks s) t := by
  simp [runPendingTasks, List.foldl_append]

/-- Filtering a key out of the registry makes lookup of that key fail. -/
theorem lookup_filter_self (sid : String) (l : List (String × Session)) :
    (l.filter fun p => !(p.1 == sid)).lookup sid = none := by
  induction l with
  | nil => rfl
  | cons hd tl ih =>
      by_cases h : hd.1 = sid
      · simp [List.filter_cons, h, ih]
      · have hb : (sid == hd.1) = false := by simp [Ne.symm h]
        simp [List.filter_cons, h, List.lookup, hb, ih]

/-- C1, counterexample: with `nodeInfo` absent, `expandNode` does not resolve
`accepted = false`; it rejects the returned promise with the
requires-nodeInfo message, so no state is produced and no `onExpandCompleted`
event is ever scheduled for the call. -/
theorem expandNodeAbsentCounterexample :
    expandNode initialProviderState none false =
      Except.error "expandNode requires a nodeInfo object to be passed" := rfl

/-- C1, amended: for every provider state, `expandNode` with an absent
`nodeInfo` rejects synchronously with a non-empty error message instead of
resolving `false`; since the rejection produces no successor state, no
deferred task is queued and no `onExpandCompleted` event is emitted for the
call. -/
theorem expandNodeAbsentRejects (s : ProviderState) (isRefresh : Bool) :
    expandNode s none isRefresh =
      Except.error "expandNode requires a nodeInfo object to be passed" ∧
    "expandNode requires a nodeInfo object to be passed" ≠ "" := by
  exact ⟨rfl, by decide⟩

/-- C2, counterexample: an option bag with host, user and password present
but the port option absent fails descriptor validation, so normalization
throws instead of succeeding with the default port. -/
theorem normalizePortAbsentCounterexample :
    SqlClusterConnection.mk?
        { host := some "h", knoxport := none, user := some "root", password := some "p" } =
      Except.error "Invalid ConnectionInfo is provided." := rfl

/-- C2, amended: normalization fails when the port option is absent (the
validity check requires the key to be present); the default port substitutes
when the port option is present but empty, and the end-to-end session for
host `h`, empty port, user `root`, password `p` succeeds with exactly one
success event whose root node has label `h` and `isLeaf = false`. -/
theorem sessionWithEmptyPortSucceeds :
    SqlClusterConnection.mk? emptyPortOptions = Except.ok ⟨emptyPortOptions⟩ ∧
    SqlClusterConnection.port ⟨emptyPortOptions⟩ = defaultKnoxPort ∧
    (runPendingTasks (afterOneCreate emptyPortOptions)).sessionEvents.map
        (fun e => (e.success, e.rootNodeInfo.map NodeInfo.label,
          e.rootNodeInfo.map NodeInfo.isLeaf)) =
      [(true, some "h", some false)] := by
  exact ⟨rfl, rfl, by decide⟩

/-- C9: for every host, user and password, an option bag whose port option is
present but empty is accepted by the constructor and the port getter yields
the default constant, while the same bag with the port option absent is
rejected: the default substitutes for a falsy stored value, not for an absent
key. -/
theorem portDefaultEmptyNotAbsent (hst u p : String) :
    SqlClusterConnection.mk?
        { host := some hst, knoxport := some "", user := some u, password := some p } =
      Except.ok ⟨{ host := some hst, knoxport := some "", user := some u, password := some p }⟩ ∧
    SqlClusterConnection.port
        ⟨{ host := some hst, knoxport := some "", user := some u, password := some p }⟩ =
      defaultKnoxPort ∧
    SqlClusterConnection.mk?
        { host := some hst, knoxport := none, user := some u, password := some p } =
      Except.error "Invalid ConnectionInfo is provided." := by
  refine ⟨rfl, rfl, rfl⟩

/-- C7: `isMatch` of two constructed descriptors holds exactly when their
stored host, port and user fields agree; the password field of either side
never influences the result; and a descriptor constructed from an option bag
matches that bag. -/
theorem isMatchSpec :
    (∀ c1 c2 : SqlClusterConnection,
        c1.isMatch (some c2.options) = true ↔
          (c2.options.host = c1.options.host ∧ c2.options.knoxport = c1.options.knoxport ∧
            c2.options.user = c1.options.user)) ∧
    (∀ (c : SqlClusterConnection) (o : ConnOptions) (pw1 pw2 : Option String),
        c.isMatch (some { o with password := pw1 }) =
          c.isMatch (some { o with password := pw2 })) ∧
    (∀ (o : ConnOptions) (pw1 pw2 : Option String) (obj : Option ConnOptions),
        SqlClusterConnection.isMatch ⟨{ o with password := pw1 }⟩ obj =
          SqlClusterConnection.isMatch ⟨{ o with password := pw2 }⟩ obj) ∧
    (∀ (o : ConnOptions) (c : SqlClusterConnection),
        SqlClusterConnection.mk? o = Except.ok c → c.isMatch (some o) = true) := by
  refine ⟨?_, ?_, ?_, ?_⟩
  · intro c1 c2
    simp [SqlClusterConnection.isMatch, and_assoc]
  · intro c o pw1 pw2
    rfl
  · intro o pw1 pw2 obj
    cases obj with
    | none => rfl
    | some o2 => rfl
  · intro o c h
    unfold SqlClusterConnection.mk? at h
    split at h
    · cases h
      simp [SqlClusterConnection.isMatch]
    · cases h

/-- C7 witness: the sample option bag normalizes and matches itself. -/
theorem isMatchSpecWitness :
    SqlClusterConnection.mk? sampleOptions = Except.ok ⟨sampleOptions⟩ ∧
    SqlClusterConnection.isMatch ⟨sampleOptions⟩ (some sampleOptions) = true :=
  ⟨rfl, isMatchSpec.2.2.2 sampleOptions ⟨sampleOptions⟩ rfl⟩

/-- C5: when `nodeInfo` is present but its session key is not registered,
`expandNode` resolves `false` synchronously with exactly one deferred error
task queued; draining the event loop emits exactly one more
`onExpandCompleted` event than before, and that event's message names the
uri whose session could not be found. -/
theorem expandNodeUnknownSession (s : ProviderState) (ni : ExpandNodeInfo) (isRefresh : Bool)
    (h : s.sessionMap.lookup ni.sessionId = none) :
    expandNode s (some ni) isRefresh =
      Except.ok (false, { s with
        tasks := s.tasks ++ [DeferredTask.expandSessionNotFound ni.sessionId ni.nodePath] }) ∧
    (runPendingTasks { s with
        tasks := s.tasks ++ [DeferredTask.expandSessionNotFound ni.sessionId ni.nodePath] }).expandEvents =
      (runPendingTasks s).expandEvents ++ [sessionNotFoundEvent ni.sessionId ni.nodePath] ∧
    (sessionNotFoundEvent ni.sessionId ni.nodePath).errorMessage =
      some ("Cannot expand object explorer node. Couldn\x27t find session for uri "
        ++ ni.sessionId) := by
  refine ⟨?_, ?_, rfl⟩
  · simp [expandNode, h]
  · rw [runPendingTasks_snoc]
    rfl

/-- C5 witness: a fresh provider has no session for the sample unknown key,
and expanding it is resolved `false` with the error task queued. -/
theorem expandNodeUnknownSessionWitness :
    initialProviderState.sessionMap.lookup unknownExpandInfo.sessionId = none ∧
    expandNode initialProviderState (some unknownExpandInfo) false =
      Except.ok (false, { initialProviderState with
        tasks := [DeferredTask.expandSessionNotFound unknownExpandInfo.sessionId
          unknownExpandInfo.nodePath] }) :=
  ⟨rfl, (expandNodeUnknownSession initialProviderState unknownExpandInfo false rfl).1⟩

/-- C6: a root node with an absent children cache builds exactly the one-element
sequence holding the HDFS connection node and caches it; any root node with a
populated cache returns the cached sequence unchanged, with the node state
untouched (so repeated unforced calls return the identical sequence); a
forced call always rebuilds the one-element sequence regardless of cache. -/
theorem rootNodeGetChildrenCache (r : RootNode) (h : r.children = none) :
    r.getChildren false =
      ([hdfsChildOf r], { r with children := some [hdfsChildOf r] }) ∧
    (∀ (r1 : RootNode) (cs : List TreeNode), r1.children = some cs →
        r1.getChildren false = (cs, r1)) ∧
    (∀ r2 : RootNode,
        r2.getChildren true =
          ([hdfsChildOf r2], { r2 with children := some [hdfsChildOf r2] })) := by
  refine ⟨?_, ?_, ?_⟩
  · simp [RootNode.getChildren, h]
  · intro r1 cs h1
    simp [RootNode.getChildren, h1]
  · intro r2
    simp [RootNode.getChildren]

/-- C6 witness: the sample fresh root builds its single HDFS child on the
first unforced call. -/
theorem rootNodeGetChildrenCacheWitness :
    sampleRootNode.children = none ∧
    sampleRootNode.getChildren false =
      ([hdfsChildOf sampleRootNode],
        { sampleRootNode with children := some [hdfsChildOf sampleRootNode] }) :=
  ⟨rfl, (rootNodeGetChildrenCache sampleRootNode rfl).1⟩

/-- C8: `closeSession` reports success exactly when the key was registered at
call time, echoes the key, leaves the key unregistered afterwards, and a
second close of the same key reports failure. -/
theorem closeSessionSpec (s : ProviderState) (sid : String) :
    (closeSession s sid).1.success = (s.sessionMap.lookup sid).isSome ∧
    (closeSession s sid).1.sessionId = sid ∧
    (closeSession s sid).2.sessionMap.lookup sid = none ∧
    (closeSession (closeSession s sid).2 sid).1.success = false := by
  refine ⟨rfl, rfl, lookup_filter_self sid s.sessionMap, ?_⟩
  show ((closeSession s sid).2.sessionMap.lookup sid).isSome = false
  rw [show (closeSession s sid).2.sessionMap =
        s.sessionMap.filter (fun p => !(p.1 == sid)) from rfl,
    lookup_filter_self]
  rfl

/-- C3, counterexample: two `createSession` calls with the same valid
connection input each queue their deferred construction (two tasks), yet
draining the event loop emits one `onSessionCreated` event in total, not one
per call: the call whose key is already registered when its deferred
construction runs emits no event. -/
theorem createSessionDuplicateCounterexample :
    (afterTwoCreates sampleOptions sampleOptions).tasks.length = 2 ∧
    (runPendingTasks (afterTwoCreates sampleOptions sampleOptions)).sessionEvents.length = 1 := by
  exact ⟨rfl, by decide⟩

/-- C3, amended: a `createSession` call with valid connection input resolves
synchronously with the session key and only queues its construction task:
no `onSessionCreated` event is emitted before the synchronous return.  When
the deferred task later runs, it emits exactly one event if the key is then
absent from the registry, and emits none (skipping construction silently) if
the key is already present. -/
theorem createSessionDeferredEventOnce (s : ProviderState) (o : ConnOptions)
    (h : isValidOptions o = true) :
    Connection.mk? o = Except.ok { options := o, uri := uriOf o } ∧
    createNewSession s o =
      Except.ok (uriOf o, { s with
        tasks := s.tasks ++ [DeferredTask.createSession { options := o, uri := uriOf o }] }) ∧
    ({ s with
        tasks := s.tasks ++ [DeferredTask.createSession { options := o, uri := uriOf o }] }
      : ProviderState).sessionEvents = s.sessionEvents ∧
    (∀ x : ProviderState, (x.sessionMap.lookup (uriOf o)).isSome = true →
        runTask x (DeferredTask.createSession { options := o, uri := uriOf o }) = x) ∧
    (∀ x : ProviderState, x.sessionMap.lookup (uriOf o) = none →
        (runTask x (DeferredTask.createSession { options := o, uri := uriOf o })).sessionEvents =
          x.sessionEvents ++ [sessionSuccessEvent { options := o, uri := uriOf o }]) := by
  refine ⟨?_, ?_, rfl, ?_, ?_⟩
  · simp [Connection.mk?, h]
  · simp [createNewSession, Connection.mk?, h]
  · intro x hx
    simp [runTask, Connection.uri, hx]
  · intro x hx
    simp [runTask, Connection.uri, hx]

/-- C3 witness: the sample options are valid and the call on a fresh provider
behaves as amended. -/
theorem createSessionDeferredEventOnceWitness :
    isValidOptions sampleOptions = true ∧
    createNewSession initialProviderState sampleOptions =
      Except.ok (uriOf sampleOptions, { initialProviderState with
        tasks := [DeferredTask.createSession
          { options := sampleOptions, uri := uriOf sampleOptions }] }) :=
  ⟨rfl, (createSessionDeferredEventOnce initialProviderState sampleOptions rfl).2.1⟩

/-- C4: two `createSession` calls on a fresh provider whose valid inputs
derive the same session key yield, after the event loop drains, exactly the
one success event of the first call; the second deferred construction is
skipped because the key is already registered. -/
theorem createSessionSameKeySingleEvent (o1 o2 : ConnOptions)
    (h1 : isValidOptions o1 = true) (h2 : isValidOptions o2 = true)
    (hkey : uriOf o1 = uriOf o2) :
    (runPendingTasks (afterTwoCreates o1 o2)).sessionEvents =
      [sessionSuccessEvent { options := o1, uri := uriOf o1 }] ∧
    (sessionSuccessEvent { options := o1, uri := uriOf o1 }).success = true := by
  have e1 : createNewSession initialProviderState o1 =
      Except.ok (uriOf o1, { initialProviderState with
        tasks := [DeferredTask.createSession { options := o1, uri := uriOf o1 }] }) := by
    simp [createNewSession, Connection.mk?, h1, initialProviderState]
  have e2 : createNewSession
      ({ initialProviderState with
        tasks := [DeferredTask.createSession { options := o1, uri := uriOf o1 }] }) o2 =
      Except.ok (uriOf o2, { initialProviderState with
        tasks := [DeferredTask.createSession { options := o1, uri := uriOf o1 },
          DeferredTask.createSession { options := o2, uri := uriOf o2 }] }) := by
    simp [createNewSession, Connection.mk?, h2, initialProviderState]
  have hstate : afterTwoCreates o1 o2 = { initialProviderState with
      tasks := [DeferredTask.createSession { options := o1, uri := uriOf o1 },
        DeferredTask.createSession { options := o2, uri := uriOf o2 }] } := by
    unfold afterTwoCreates
    rw [e1]
    dsimp only
    rw [e2]
  rw [hstate]
  have hbeq : (uriOf o2 == uriOf o1) = true := by simp [hkey]
  refine ⟨?_, rfl⟩
  simp [runPendingTasks, runTask, Connection.uri, List.lookup, hbeq, initialProviderState]

/-- C4 witness: repeating the sample options gives one success event. -/
theorem createSessionSameKeySingleEventWitness :
    isValidOptions sampleOptions = true ∧
    (runPendingTasks (afterTwoCreates sampleOptions sampleOptions)).sessionEvents =
      [sessionSuccessEvent { options := sampleOptions, uri := uriOf sampleOptions }] :=
  ⟨rfl, (createSessionSameKeySingleEvent sampleOptions sampleOptions rfl rfl rfl).1⟩

/-- C10: the cluster lookup resolves to undefined, never throwing, at every
missing prerequisite: absent input; (on the non-cluster-provider path) a
falsy connection id, a failed server-info lookup, server info without
options, an absent or empty endpoints list, an endpoints list without the
Knox gateway endpoint, and a failed credentials lookup. -/
theorem lookUpMissingPrerequisites
    (gsi : String → Option ServerInfo) (gc : String → Option Credentials) :
    lookUpSqlClusterInfo gsi gc none = none ∧
    (∀ o : ConnectionObj, (o.providerName == mssqlClusterProviderName) = false →
        jsFalsy o.connId = true →
        lookUpSqlClusterInfo gsi gc (some o) = none) ∧
    (∀ o : ConnectionObj, (o.providerName == mssqlClusterProviderName) = false →
        jsFalsy o.connId = false →
        gsi (o.connId.getD "") = none →
        lookUpSqlClusterInfo gsi gc (some o) = none) ∧
    (∀ (o : ConnectionObj) (si : ServerInfo),
        (o.providerName == mssqlClusterProviderName) = false →
        jsFalsy o.connId = false →
        gsi (o.connId.getD "") = some si → si.options = none →
        lookUpSqlClusterInfo gsi gc (some o) = none) ∧
    (∀ (o : ConnectionObj) (si : ServerInfo) (opts : ServerOptions),
        (o.providerName == mssqlClusterProviderName) = false →
        jsFalsy o.connId = false →
        gsi (o.connId.getD "") = some si → si.options = some opts →
        opts.clusterEndpoints = none →
        lookUpSqlClusterInfo gsi gc (some o) = none) ∧
    (∀ (o : ConnectionObj) (si : ServerInfo) (opts : ServerOptions),
        (o.providerName == mssqlClusterProviderName) = false →
        jsFalsy o.connId = false →
        gsi (o.connId.getD "") = some si → si.options = some opts →
        opts.clusterEndpoints = some [] →
        lookUpSqlClusterInfo gsi gc (some o) = none) ∧
    (∀ (o : ConnectionObj) (si : ServerInfo) (opts : ServerOptions) (eps : List IEndpoint),
        (o.providerName == mssqlClusterProviderName) = false →
        jsFalsy o.connId = false →
        gsi (o.connId.getD "") = some si → si.options = some opts →
        opts.clusterEndpoints = some eps →
        eps.findIdx? (fun ep => ep.serviceName == hadoopKnoxEndpointName) = none →
        lookUpSqlClusterInfo gsi gc (some o) = none) ∧
    (∀ (o : ConnectionObj) (si : ServerInfo) (opts : ServerOptions) (eps : List IEndpoint)
        (i : Nat),
        (o.providerName == mssqlClusterProviderName) = false →
        jsFalsy o.connId = false →
        gsi (o.connId.getD "") = some si → si.options = some opts →
        opts.clusterEndpoints = some eps → (eps.length == 0) = false →
        eps.findIdx? (fun ep => ep.serviceName == hadoopKnoxEndpointName) = some i →
        gc (o.connId.getD "") = none →
        lookUpSqlClusterInfo gsi gc (some o) = none) := by
  refine ⟨rfl, ?_, ?_, ?_, ?_, ?_, ?_, ?_⟩
  · intro o hp hf
    simp [lookUpSqlClusterInfo, createSqlClusterConnectionParam, hp, hf]
  · intro o hp hf hsi
    simp [lookUpSqlClusterInfo, createSqlClusterConnectionParam, hp, hf, hsi]
  · intro o si hp hf hsi hopts
    simp [lookUpSqlClusterInfo, createSqlClusterConnectionParam, hp, hf, hsi, hopts]
  · intro o si opts hp hf hsi hopts heps
    simp [lookUpSqlClusterInfo, createSqlClusterConnectionParam, hp, hf, hsi, hopts, heps]
  · intro o si opts hp hf hsi hopts heps
    simp [lookUpSqlClusterInfo, createSqlClusterConnectionParam, hp, hf, hsi, hopts, heps]
  · intro o si opts eps hp hf hsi hopts heps hidx
    by_cases hlen : (eps.length == 0) = true
    · simp [lookUpSqlClusterInfo, createSqlClusterConnectionParam, hp, hf, hsi, hopts,
        heps, hlen]
    · simp only [Bool.not_eq_true] at hlen
      simp [lookUpSqlClusterInfo, createSqlClusterConnectionParam, hp, hf, hsi, hopts,
        heps, hlen, hidx]
  · intro o si opts eps i hp hf hsi hopts heps hlen hidx hcred
    simp [lookUpSqlClusterInfo, createSqlClusterConnectionParam, hp, hf, hsi, hopts,
      heps, hlen, hidx, hcred]

/-- C10 witness: a non-cluster input with no connection id resolves to
undefined. -/
theorem lookUpMissingPrerequisitesWitness :
    (sampleLookupObj.providerName == mssqlClusterProviderName) = false ∧
    jsFalsy sampleLookupObj.connId = true ∧
    lookUpSqlClusterInfo (fun _ => none) (fun _ => none) (some sampleLookupObj) = none :=
  ⟨rfl, rfl,
    (lookUpMissingPrerequisites (fun _ => none) (fun _ => none)).2.1 sampleLookupObj rfl rfl⟩

end Mssql
